import Mathlib

/-!
Shallow embedding of the `event-ease` client-side state containers:
the authentication session store (`AuthContext`) and the event
collection store (`EventsContext.tsx`).  Each store is a pure reducer
over an enumerated action type, together with async orchestration
functions that dispatch actions around collaborator (API) calls.

The orchestration functions are embedded as pure functions taking the
collaborator call's outcome (`Except String α`) as an explicit argument
and returning the final state (the left fold of the reducer over the
exact dispatch sequence the source performs on that outcome) together
with the value or error delivered to the caller.
-/

/-- A user record.  The `types/auth` module is not part of the sources
under verification; the session reducer treats the user payload opaquely,
so only an identifier field is modelled. -/
structure User where
  id : String
deriving Repr, DecidableEq

/-- Session state, from `AuthState`: user, authentication flag, loading
flag, last error message. -/
structure AuthState where
  user : Option User
  isAuthenticated : Bool
  isLoading : Bool
  error : Option String
deriving Repr, DecidableEq

/-- The session action type `AuthAction`. -/
inductive AuthAction where
  | loginStart
  | loginSuccess (payload : User)
  | loginFailure (payload : String)
  | registerStart
  | registerSuccess (payload : User)
  | registerFailure (payload : String)
  | logout
  | clearError
  | setLoading (payload : Bool)
deriving Repr, DecidableEq

namespace Auth

/-- `initialState` of the session store. -/
def initialState : AuthState :=
  { user := none, isAuthenticated := false, isLoading := false, error := none }

/-- The session reducer `authReducer`, case for case from the source. -/
def authReducer (state : AuthState) (action : AuthAction) : AuthState :=
  match action with
  | .loginStart | .registerStart =>
      { state with isLoading := true, error := none }
  | .loginSuccess payload | .registerSuccess payload =>
      { state with user := some payload, isAuthenticated := true,
                   isLoading := false, error := none }
  | .loginFailure payload | .registerFailure payload =>
      { state with user := none, isAuthenticated := false,
                   isLoading := false, error := some payload }
  | .logout =>
      { state with user := none, isAuthenticated := false, error := none }
  | .clearError =>
      { state with error := none }
  | .setLoading payload =>
      { state with isLoading := payload }

/-- The `logout` orchestration function.  The source awaits
`authAPI.logout()` and dispatches `LOGOUT` on the line after the await,
inside the `try` block; the `catch` block only logs and does not
rethrow, so on failure no action is dispatched and the promise resolves
normally. -/
def logoutRun (state : AuthState) (apiLogout : Except String Unit) :
    AuthState × Except String Unit :=
  match apiLogout with
  | .ok _ => (authReducer state .logout, .ok ())
  | .error _ => (state, .ok ())

/-- The `forgotPassword` orchestration function: dispatch
`SET_LOADING true`; on collaborator success just run the `finally`
(`SET_LOADING false`); on failure dispatch `LOGIN_FAILURE message`,
run the `finally`, and rethrow. -/
def forgotPasswordRun (state : AuthState) (api : Except String Unit) :
    AuthState × Except String Unit :=
  let s1 := authReducer state (.setLoading true)
  match api with
  | .ok _ => (authReducer s1 (.setLoading false), .ok ())
  | .error m =>
      (authReducer (authReducer s1 (.loginFailure m)) (.setLoading false),
       .error m)

/-- The session invariant: the authentication flag agrees with the
presence of a user. -/
def invariant (s : AuthState) : Prop :=
  s.isAuthenticated = s.user.isSome

instance (s : AuthState) : Decidable (invariant s) := by
  unfold invariant; infer_instance

end Auth

/-- C2: the invariant `isAuthenticated == (user is present)` holds in the
initial session state and is preserved by every action of the session
reducer. -/
theorem C2_auth_invariant_preserved :
    Auth.invariant Auth.initialState ∧
    ∀ (s : AuthState) (a : AuthAction),
      Auth.invariant s → Auth.invariant (Auth.authReducer s a) := by
  refine ⟨by decide, ?_⟩
  intro s a h
  cases a <;>
    simp_all [Auth.invariant, Auth.authReducer]

/-- Witness for C2 at a concrete state and action. -/
theorem C2_auth_invariant_preserved_witness :
    Auth.invariant (Auth.authReducer Auth.initialState .logout) :=
  C2_auth_invariant_preserved.2 Auth.initialState .logout (by decide)

/-- C1 counterexample: with a logged-in state and a failing collaborator
call, `logout()` completes with the user still present — the `LOGOUT`
dispatch sits inside the `try` block after the failing await, so it never
runs.  This refutes the claim that the LOGOUT action is dispatched (and
the session cleared) even when the collaborator call fails. -/
theorem C1_logout_counterexample :
    ¬ ((Auth.logoutRun
          { user := some { id := "1" }, isAuthenticated := true,
            isLoading := false, error := none }
          (.error "network")).1.user = none) := by
  decide

/-- C1 (amended): `logout()` never propagates the collaborator failure,
and dispatches `LOGOUT` only when the collaborator call succeeds: on
success the resulting state has user absent, `isAuthenticated = false`
and error absent; on failure no action is dispatched and the state is
unchanged. -/
theorem C1_logout_best_effort (s : AuthState) (m : String) :
    (Auth.logoutRun s (.ok ())).2 = .ok () ∧
    (Auth.logoutRun s (.ok ())).1.user = none ∧
    (Auth.logoutRun s (.ok ())).1.isAuthenticated = false ∧
    (Auth.logoutRun s (.ok ())).1.error = none ∧
    (Auth.logoutRun s (.error m)).2 = .ok () ∧
    (Auth.logoutRun s (.error m)).1 = s := by
  simp [Auth.logoutRun, Auth.authReducer]

/-- C7: when `forgotPassword` fails with message `m`, a
`LOGIN_FAILURE m` action is dispatched — the resulting state has user
absent, `isAuthenticated = false` and `error = some m` — the failure is
propagated to the caller, and `isLoading` is false after the call
completes whether it succeeds or fails. -/
theorem C7_forgotPassword_failure (s : AuthState) (m : String) :
    (Auth.forgotPasswordRun s (.error m)).1.user = none ∧
    (Auth.forgotPasswordRun s (.error m)).1.isAuthenticated = false ∧
    (Auth.forgotPasswordRun s (.error m)).1.error = some m ∧
    (Auth.forgotPasswordRun s (.error m)).1.isLoading = false ∧
    (Auth.forgotPasswordRun s (.error m)).2 = .error m ∧
    (Auth.forgotPasswordRun s (.ok ())).1.isLoading = false := by
  simp [Auth.forgotPasswordRun, Auth.authReducer]

/-- C8: `LOGIN_SUCCESS u` followed immediately by `LOGOUT` yields a state
with user absent, `isAuthenticated = false` and error absent, and the
`LOGOUT` step leaves the loading flag exactly as `LOGIN_SUCCESS` left it
(`isLoading = false`). -/
theorem C8_login_success_then_logout (s : AuthState) (u : User) :
    (Auth.authReducer (Auth.authReducer s (.loginSuccess u)) .logout).user
      = none ∧
    (Auth.authReducer (Auth.authReducer s (.loginSuccess u))
        .logout).isAuthenticated = false ∧
    (Auth.authReducer (Auth.authReducer s (.loginSuccess u)) .logout).error
      = none ∧
    (Auth.authReducer (Auth.authReducer s (.loginSuccess u))
        .logout).isLoading
      = (Auth.authReducer s (.loginSuccess u)).isLoading ∧
    (Auth.authReducer s (.loginSuccess u)).isLoading = false := by
  simp [Auth.authReducer]

/-- An event record.  The `types/events` module is not part of the
sources under verification; the events reducer compares entries only by
`id`, so an identifier plus one opaque content field is modelled. -/
structure Event where
  id : String
  title : String
deriving Repr, DecidableEq

/-- Event filters.  The `types/events` module is not part of the sources
under verification; the reducer stores filters opaquely (replaced
wholesale by `SET_FILTERS`), so an opaque key-value list is modelled. -/
structure EventFilters where
  fields : List (String × String)
deriving Repr, DecidableEq

/-- Events state, from `EventsState`: all events, the caller's own
events, the focused event, loading flag, last error, active filters. -/
structure EventsState where
  events : List Event
  myEvents : List Event
  currentEvent : Option Event
  isLoading : Bool
  error : Option String
  filters : EventFilters
deriving Repr, DecidableEq

/-- The events action type `EventsAction`. -/
inductive EventsAction where
  | fetchEventsStart
  | fetchEventsSuccess (payload : List Event)
  | fetchEventsFailure (payload : String)
  | fetchMyEventsSuccess (payload : List Event)
  | setCurrentEvent (payload : Option Event)
  | createEventSuccess (payload : Event)
  | updateEventSuccess (payload : Event)
  | deleteEventSuccess (payload : String)
  | setFilters (payload : EventFilters)
  | clearError
  | setLoading (payload : Bool)
deriving Repr, DecidableEq

namespace Events

/-- `initialState` of the events store. -/
def initialState : EventsState :=
  { events := [], myEvents := [], currentEvent := none,
    isLoading := false, error := none, filters := { fields := [] } }

/-- The events reducer `eventsReducer`, case for case from the source.
`UPDATE_EVENT_SUCCESS` maps replace-by-id over both lists;
`DELETE_EVENT_SUCCESS` filters both lists; the `currentEvent` update
mirrors the optional-chaining comparison `state.currentEvent?.id ===
action.payload.id` (false when `currentEvent` is absent). -/
def eventsReducer (state : EventsState) (action : EventsAction) :
    EventsState :=
  match action with
  | .fetchEventsStart =>
      { state with isLoading := true, error := none }
  | .fetchEventsSuccess payload =>
      { state with events := payload, isLoading := false, error := none }
  | .fetchEventsFailure payload =>
      { state with isLoading := false, error := some payload }
  | .fetchMyEventsSuccess payload =>
      { state with myEvents := payload }
  | .setCurrentEvent payload =>
      { state with currentEvent := payload }
  | .createEventSuccess payload =>
      { state with events := state.events ++ [payload],
                   myEvents := state.myEvents ++ [payload] }
  | .updateEventSuccess payload =>
      { state with
          events := state.events.map
            (fun event => if event.id = payload.id then payload else event),
          myEvents := state.myEvents.map
            (fun event => if event.id = payload.id then payload else event),
          currentEvent :=
            match state.currentEvent with
            | some c => if c.id = payload.id then some payload else some c
            | none => none }
  | .deleteEventSuccess payload =>
      { state with
          events := state.events.filter (fun event => event.id ≠ payload),
          myEvents := state.myEvents.filter (fun event => event.id ≠ payload),
          currentEvent :=
            match state.currentEvent with
            | some c => if c.id = payload then none else some c
            | none => none }
  | .setFilters payload =>
      { state with filters := payload }
  | .clearError =>
      { state with error := none }
  | .setLoading payload =>
      { state with isLoading := payload }

/-- The `fetchEvent` orchestration function: dispatch `SET_LOADING true`;
on success dispatch `SET_CURRENT_EVENT` with the (possibly absent)
result; on failure dispatch `FETCH_EVENTS_FAILURE message` (not
rethrown); the `finally` dispatches `SET_LOADING false`. -/
def fetchEventRun (state : EventsState)
    (apiGet : Except String (Option Event)) :
    EventsState × Except String Unit :=
  let s1 := eventsReducer state (.setLoading true)
  match apiGet with
  | .ok event =>
      (eventsReducer (eventsReducer s1 (.setCurrentEvent event))
        (.setLoading false), .ok ())
  | .error m =>
      (eventsReducer (eventsReducer s1 (.fetchEventsFailure m))
        (.setLoading false), .ok ())

/-- The `createEvent` orchestration function: dispatch `SET_LOADING
true`; on success dispatch `CREATE_EVENT_SUCCESS event` and return the
event; on failure dispatch `FETCH_EVENTS_FAILURE message` and rethrow;
the `finally` dispatches `SET_LOADING false` either way. -/
def createEventRun (state : EventsState) (apiCreate : Except String Event) :
    EventsState × Except String Event :=
  let s1 := eventsReducer state (.setLoading true)
  match apiCreate with
  | .ok event =>
      (eventsReducer (eventsReducer s1 (.createEventSuccess event))
        (.setLoading false), .ok event)
  | .error m =>
      (eventsReducer (eventsReducer s1 (.fetchEventsFailure m))
        (.setLoading false), .error m)

/-- The `joinEvent` orchestration function: await the join mutation,
then re-fetch the event by id; if the refreshed event is present,
dispatch `SET_CURRENT_EVENT` with it; a failure of either call
dispatches `FETCH_EVENTS_FAILURE message` and rethrows. -/
def joinEventRun (state : EventsState) (apiJoin : Except String Unit)
    (apiGet : Except String (Option Event)) :
    EventsState × Except String Unit :=
  match apiJoin with
  | .error m => (eventsReducer state (.fetchEventsFailure m), .error m)
  | .ok _ =>
      match apiGet with
      | .error m => (eventsReducer state (.fetchEventsFailure m), .error m)
      | .ok none => (state, .ok ())
      | .ok (some event) =>
          (eventsReducer state (.setCurrentEvent (some event)), .ok ())

/-- The `leaveEvent` orchestration function; the source duplicates the
body of `joinEvent` with the leave mutation in place of the join. -/
def leaveEventRun (state : EventsState) (apiLeave : Except String Unit)
    (apiGet : Except String (Option Event)) :
    EventsState × Except String Unit :=
  match apiLeave with
  | .error m => (eventsReducer state (.fetchEventsFailure m), .error m)
  | .ok _ =>
      match apiGet with
      | .error m => (eventsReducer state (.fetchEventsFailure m), .error m)
      | .ok none => (state, .ok ())
      | .ok (some event) =>
          (eventsReducer state (.setCurrentEvent (some event)), .ok ())

end Events

/-- C3: `UPDATE_EVENT_SUCCESS e` preserves the length of `events` and
`myEvents`; at every position, an entry whose id equals `e.id` is
replaced by `e` and every other entry is unchanged (so order is
preserved); `currentEvent` is replaced by `e` exactly when it is present
with id `e.id`, and stays absent when absent. -/
theorem C3_update_event_success (s : EventsState) (e : Event) :
    (Events.eventsReducer s (.updateEventSuccess e)).events.length
      = s.events.length ∧
    (Events.eventsReducer s (.updateEventSuccess e)).myEvents.length
      = s.myEvents.length ∧
    (∀ (i : Nat) (ev : Event), s.events[i]? = some ev →
      (Events.eventsReducer s (.updateEventSuccess e)).events[i]?
        = some (if ev.id = e.id then e else ev)) ∧
    (∀ (i : Nat) (ev : Event), s.myEvents[i]? = some ev →
      (Events.eventsReducer s (.updateEventSuccess e)).myEvents[i]?
        = some (if ev.id = e.id then e else ev)) ∧
    (∀ c : Event, s.currentEvent = some c →
      (Events.eventsReducer s (.updateEventSuccess e)).currentEvent
        = if c.id = e.id then some e else some c) ∧
    (s.currentEvent = none →
      (Events.eventsReducer s (.updateEventSuccess e)).currentEvent
        = none) := by
  refine ⟨?_, ?_, ?_, ?_, ?_, ?_⟩
  · simp [Events.eventsReducer]
  · simp [Events.eventsReducer]
  · intro i ev h
    simp [Events.eventsReducer, List.getElem?_map, h]
  · intro i ev h
    simp [Events.eventsReducer, List.getElem?_map, h]
  · intro c h
    simp [Events.eventsReducer, h]
  · intro h
    simp [Events.eventsReducer, h]

/-- Witness for C3 at a concrete state and event. -/
theorem C3_update_event_success_witness :
    (Events.eventsReducer
      { events := [{ id := "1", title := "a" }, { id := "2", title := "b" }],
        myEvents := [{ id := "2", title := "b" }],
        currentEvent := some { id := "2", title := "b" },
        isLoading := false, error := none, filters := { fields := [] } }
      (.updateEventSuccess { id := "2", title := "c" })).events[1]?
      = some (if ("2" : String) = "2"
              then { id := "2", title := "c" }
              else { id := "2", title := "b" }) :=
  (C3_update_event_success
    { events := [{ id := "1", title := "a" }, { id := "2", title := "b" }],
      myEvents := [{ id := "2", title := "b" }],
      currentEvent := some { id := "2", title := "b" },
      isLoading := false, error := none, filters := { fields := [] } }
    { id := "2", title := "c" }).2.2.1 1 { id := "2", title := "b" }
    (by decide)

/-- C4: `DELETE_EVENT_SUCCESS eid` leaves no entry with id `eid` in
`events` or `myEvents`, the surviving entries form a sublist of the
original one (order preserved), every entry with a different id survives
with its multiplicity unchanged, and `currentEvent` is cleared exactly
when it was present with id `eid` (and stays absent when absent). -/
theorem C4_delete_event_success (s : EventsState) (eid : String) :
    (∀ ev ∈ (Events.eventsReducer s (.deleteEventSuccess eid)).events,
      ev.id ≠ eid) ∧
    (Events.eventsReducer s (.deleteEventSuccess eid)).events.Sublist
      s.events ∧
    (∀ ev : Event, ev.id ≠ eid →
      (Events.eventsReducer s (.deleteEventSuccess eid)).events.count ev
        = s.events.count ev) ∧
    (∀ ev ∈ (Events.eventsReducer s (.deleteEventSuccess eid)).myEvents,
      ev.id ≠ eid) ∧
    (Events.eventsReducer s (.deleteEventSuccess eid)).myEvents.Sublist
      s.myEvents ∧
    (∀ ev : Event, ev.id ≠ eid →
      (Events.eventsReducer s (.deleteEventSuccess eid)).myEvents.count ev
        = s.myEvents.count ev) ∧
    (∀ c : Event, s.currentEvent = some c →
      (Events.eventsReducer s (.deleteEventSuccess eid)).currentEvent
        = if c.id = eid then none else some c) ∧
    (s.currentEvent = none →
      (Events.eventsReducer s (.deleteEventSuccess eid)).currentEvent
        = none) := by
  refine ⟨?_, ?_, ?_, ?_, ?_, ?_, ?_, ?_⟩
  · intro ev h
    simp only [Events.eventsReducer, List.mem_filter] at h
    simpa using h.2
  · exact List.filter_sublist s.events
  · intro ev h
    simp only [Events.eventsReducer]
    rw [List.count_filter]
    simp [h]
  · intro ev h
    simp only [Events.eventsReducer, List.mem_filter] at h
    simpa using h.2
  · exact List.filter_sublist s.myEvents
  · intro ev h
    simp only [Events.eventsReducer]
    rw [List.count_filter]
    simp [h]
  · intro c h
    simp [Events.eventsReducer, h]
  · intro h
    simp [Events.eventsReducer, h]

/-- Witness for C4 at a concrete state and id. -/
theorem C4_delete_event_success_witness :
    (Events.eventsReducer
      { events := [{ id := "1", title := "a" }, { id := "2", title := "b" }],
        myEvents := [{ id := "1", title := "a" }],
        currentEvent := some { id := "1", title := "a" },
        isLoading := false, error := none, filters := { fields := [] } }
      (.deleteEventSuccess "1")).currentEvent
      = if ("1" : String) = "1" then none
        else some { id := "1", title := "a" } :=
  (C4_delete_event_success
    { events := [{ id := "1", title := "a" }, { id := "2", title := "b" }],
      myEvents := [{ id := "1", title := "a" }],
      currentEvent := some { id := "1", title := "a" },
      isLoading := false, error := none, filters := { fields := [] } }
    "1").2.2.2.2.2.2.1 { id := "1", title := "a" } (by decide)

/-- C5: `CREATE_EVENT_SUCCESS e` increases the length of `events` and
`myEvents` by exactly 1, leaves every existing position of both lists
unchanged, and places `e` at the end of each. -/
theorem C5_create_event_success (s : EventsState) (e : Event) :
    (Events.eventsReducer s (.createEventSuccess e)).events.length
      = s.events.length + 1 ∧
    (Events.eventsReducer s (.createEventSuccess e)).myEvents.length
      = s.myEvents.length + 1 ∧
    (∀ i : Nat, i < s.events.length →
      (Events.eventsReducer s (.createEventSuccess e)).events[i]?
        = s.events[i]?) ∧
    (Events.eventsReducer s (.createEventSuccess e)).events[
      s.events.length]? = some e ∧
    (∀ i : Nat, i < s.myEvents.length →
      (Events.eventsReducer s (.createEventSuccess e)).myEvents[i]?
        = s.myEvents[i]?) ∧
    (Events.eventsReducer s (.createEventSuccess e)).myEvents[
      s.myEvents.length]? = some e := by
  refine ⟨?_, ?_, ?_, ?_, ?_, ?_⟩
  · simp [Events.eventsReducer]
  · simp [Events.eventsReducer]
  · intro i h
    simp only [Events.eventsReducer]
    rw [List.getElem?_append]
    simp [h]
  · simp [Events.eventsReducer]
  · intro i h
    simp only [Events.eventsReducer]
    rw [List.getElem?_append]
    simp [h]
  · simp [Events.eventsReducer]

/-- Witness for C5 at a concrete state and event. -/
theorem C5_create_event_success_witness :
    (Events.eventsReducer
      { events := [{ id := "1", title := "a" }],
        myEvents := [], currentEvent := none,
        isLoading := false, error := none, filters := { fields := [] } }
      (.createEventSuccess { id := "2", title := "b" })).events[0]?
      = [({ id := "1", title := "a" } : Event)][0]? :=
  (C5_create_event_success
    { events := [{ id := "1", title := "a" }],
      myEvents := [], currentEvent := none,
      isLoading := false, error := none, filters := { fields := [] } }
    { id := "2", title := "b" }).2.2.1 0 (by decide)

/-- C6: when the collaborator `createEvent` call fails with message `m`,
the resulting state has `error = some m` and `isLoading = false`, the
`events` list is unchanged, and the failure carrying `m` is propagated
to the caller; on success, `CREATE_EVENT_SUCCESS` is dispatched (the
event is appended to `events` and `myEvents`) and the created event is
returned to the caller. -/
theorem C6_createEvent_failure_atomic (s : EventsState) (m : String)
    (e : Event) :
    (Events.createEventRun s (.error m)).1.error = some m ∧
    (Events.createEventRun s (.error m)).1.isLoading = false ∧
    (Events.createEventRun s (.error m)).1.events = s.events ∧
    (Events.createEventRun s (.error m)).1.myEvents = s.myEvents ∧
    (Events.createEventRun s (.error m)).2 = .error m ∧
    (Events.createEventRun s (.ok e)).2 = .ok e ∧
    (Events.createEventRun s (.ok e)).1.events = s.events ++ [e] ∧
    (Events.createEventRun s (.ok e)).1.myEvents = s.myEvents ++ [e] ∧
    (Events.createEventRun s (.ok e)).1.isLoading = false := by
  simp [Events.createEventRun, Events.eventsReducer]

/-- C9: when `fetchEvent` is called and the collaborator `getEvent`
succeeds with an absent result, the resulting state has `currentEvent`
absent, the error field is untouched by this path, `isLoading` is false
after the call completes, and no failure reaches the caller. -/
theorem C9_fetchEvent_absent_result (s : EventsState) :
    (Events.fetchEventRun s (.ok none)).1.currentEvent = none ∧
    (Events.fetchEventRun s (.ok none)).1.error = s.error ∧
    (Events.fetchEventRun s (.ok none)).1.isLoading = false ∧
    (Events.fetchEventRun s (.ok none)).2 = .ok () := by
  simp [Events.fetchEventRun, Events.eventsReducer]

/-- C10: when `joinEvent` or `leaveEvent` succeeds (both the mutation
call and the follow-up `getEvent` call), the fields `events`,
`myEvents`, `isLoading`, `error` and `filters` are unchanged;
`currentEvent` is unchanged when the refreshed event is absent and
becomes the refreshed event when it is present. -/
theorem C10_join_leave_frame (s : EventsState) (r : Option Event)
    (e : Event) :
    (Events.joinEventRun s (.ok ()) (.ok r)).1.events = s.events ∧
    (Events.joinEventRun s (.ok ()) (.ok r)).1.myEvents = s.myEvents ∧
    (Events.joinEventRun s (.ok ()) (.ok r)).1.isLoading = s.isLoading ∧
    (Events.joinEventRun s (.ok ()) (.ok r)).1.error = s.error ∧
    (Events.joinEventRun s (.ok ()) (.ok r)).1.filters = s.filters ∧
    (Events.joinEventRun s (.ok ()) (.ok none)).1.currentEvent
      = s.currentEvent ∧
    (Events.joinEventRun s (.ok ()) (.ok (some e))).1.currentEvent
      = some e ∧
    (Events.leaveEventRun s (.ok ()) (.ok r)).1.events = s.events ∧
    (Events.leaveEventRun s (.ok ()) (.ok r)).1.myEvents = s.myEvents ∧
    (Events.leaveEventRun s (.ok ()) (.ok r)).1.isLoading = s.isLoading ∧
    (Events.leaveEventRun s (.ok ()) (.ok r)).1.error = s.error ∧
    (Events.leaveEventRun s (.ok ()) (.ok r)).1.filters = s.filters ∧
    (Events.leaveEventRun s (.ok ()) (.ok none)).1.currentEvent
      = s.currentEvent ∧
    (Events.leaveEventRun s (.ok ()) (.ok (some e))).1.currentEvent
      = some e := by
  cases r <;>
    simp [Events.joinEventRun, Events.leaveEventRun, Events.eventsReducer]
